import Mathlib

/-!
Shallow embedding of the CXL mailbox command engine of cxl/lib/libcxl.c:
the device-error table, the command lifecycle state machine
(query / validate / allocate / submit), payload-setter guards, the
transport's device-node discipline, and the LSA get/set/zero dispatcher.

Machine integers are modelled as Int (C `int` / `s32`) or Nat (C `u32` /
`size_t` in the ranges exercised here); byte buffers are lists of Nat.
OS-level nondeterminism (open/fstat/ioctl outcomes, firmware responses)
enters through explicit oracle parameters.  Heap allocation is modelled
as infallible: every claim below concerns behaviour on paths where
calloc/asprintf succeed.
-/

namespace LibCxl

/-- errno values used by the source (asm-generic/errno.h). Returns are
negative errno (`-EINVAL` etc.); the `errno` variable holds the positive
value. -/
def EINVAL : Int := 22

def ENOMEM : Int := 12

def ENXIO_ec : Int := 6

def EOPNOTSUPP : Int := 95

/-- The 23-entry firmware status description table `DEVICE_ERRORS` of
libcxl.c (lines 28-52), in declaration order: index = status code. -/
def DEVICE_ERRORS : List String := [
  "Success: The command completed successfully.",
  "Background Command Started: The background command started successfully. Refer to the Background Command Status register to retrieve the command result.",
  "Invalid Input: A command input was invalid.",
  "Unsupported: The command is not supported.",
  "Internal Error: The command was not completed due to an internal device error.",
  "Retry Required: The command was not completed due to a temporary error. An optional single retry may resolve the issue.",
  "Busy: The device is currently busy processing a background operation. Wait until background command completes and then retry the command.",
  "Media Disabled: The command could not be completed because it requires media access and media is disabled.",
  "FW Transfer in Progress: Only one FW package can be transferred at a time. Complete the current FW package transfer before starting a new one.",
  "FW Transfer Out of Order: The FW package transfer was aborted because the FW package content was transferred out of order.",
  "FW Authentication Failed: The FW package was not saved to the device because the FW package authentication failed.",
  "Invalid Slot: The FW slot specified is not supported or not valid for the requested operation.",
  "Activation Failed, FW Rolled Back: The new FW failed to activate and rolled back to the previous active FW.",
  "Activation Failed, Cold Reset Required: The new FW failed to activate. A cold reset is required.",
  "Invalid Handle: One or more Event Record Handles were invalid.",
  "Invalid Physical Address: The physical address specified is invalid.",
  "Inject Poison Limit Reached: The devices limit on allowed poison injection has been reached. Clear injected poison requests before attempting to inject more.",
  "Permanent Media Failure: The device could not clear poison due to a permanent issue with the media.",
  "Aborted: The background command was aborted by the device.",
  "Invalid Security State: The command is not valid in the current security state.",
  "Incorrect Passphrase: The passphrase does not match the currently set passphrase.",
  "Unsupported Mailbox: The command is not supported on the mailbox it was issued on. Used to indicate an unsupported command issued on the secondary mailbox.",
  "Invalid Payload Length: The payload length specified in the Command Register is not valid. The device is required to perform this check prior to processing any command defined in this specification."]

/-- The C expression `DEVICE_ERRORS[rc]` as written in `lsa_op`
(line 1023): a raw array index with no bound check.  `none` models an
access outside the array (undefined behaviour in C). -/
def deviceErrorLookup (rc : Int) : Option String :=
  if rc < 0 then none
  else DEVICE_ERRORS.get? rc.toNat

/-- Modelled from the spec: the total status decoder the spec demands
("A total function from status code to description for codes 0-22
inclusive. Any other value must be classified as unknown status by an
explicit guard").  This function is absent from the source, which
indexes the table unguarded. -/
def spec_status_decode (rc : Int) : String :=
  if 0 ≤ rc ∧ rc ≤ 22 then (DEVICE_ERRORS.get? rc.toNat).getD "unknown status"
  else "unknown status"

/-- Static per-device attributes of `struct cxl_memdev` consumed by the
command engine: device-node major/minor, max mailbox payload (C `int`),
LSA size (`size_t`). -/
structure CxlMemdev where
  major : Nat
  minor : Nat
  payload_max : Int
  lsa_size : Nat
deriving DecidableEq

/-- One entry of `struct cxl_mem_query_commands` (`struct
cxl_command_info`): numeric id (u32), declared sizes (s32, -1 legal for
size_out), flags. -/
structure CommandInfo where
  id : Nat
  size_in : Int
  size_out : Int
  flags : Nat
deriving DecidableEq

/-- Zero-initialised `struct cxl_command_info` (calloc state). -/
def defaultCommandInfo : CommandInfo :=
  { id := 0, size_in := 0, size_out := 0, flags := 0 }

/-- `struct cxl_mem_query_commands`: the count written back by the
kernel plus the trailing entry array. -/
structure QueryCommands where
  n_commands : Nat
  commands : List CommandInfo
deriving DecidableEq

/-- What a payload pointer field of `struct cxl_send_command` points at:
NULL, the command's own library-allocated buffer, or a caller-supplied
buffer (stored by reference only). -/
inductive PayloadPtr where
  | null
  | owned
  | user (buf : List Nat)
deriving DecidableEq

/-- `struct cxl_send_command`: command id, raw passthrough opcode, the
two payload descriptors and the device-written result code `retval`. -/
structure CxlSendCmd where
  id : Nat
  raw_opcode : Int
  in_payload : PayloadPtr
  in_size : Int
  out_payload : PayloadPtr
  out_size : Int
  retval : Int
deriving DecidableEq

/-- Zero-initialised `struct cxl_send_command` (calloc state). -/
def emptySendCmd : CxlSendCmd :=
  { id := 0, raw_opcode := 0, in_payload := PayloadPtr.null, in_size := 0,
    out_payload := PayloadPtr.null, out_size := 0, retval := 0 }

/-- query_status values (enum cxl_cmd_query_status from the library's
private header, not under src/; NOT_RUN must be 0 because `cxl_cmd_new`
obtains the struct from calloc). -/
def CXL_CMD_QUERY_NOT_RUN : Nat := 0

def CXL_CMD_QUERY_OK : Nat := 1

def CXL_CMD_QUERY_UNSUPPORTED : Nat := 2

/-- Command ids from the kernel uapi header cxl_mem.h (not under src/);
only their distinctness matters here. -/
def CXL_MEM_COMMAND_ID_RAW : Nat := 2

def CXL_MEM_COMMAND_ID_GET_LSA : Nat := 6

def CXL_MEM_COMMAND_ID_SET_LSA : Nat := 8

/-- `struct cxl_cmd`: the per-invocation command object.  `input_payload`
and `output_payload` are the library-owned buffers (freed by
`cxl_cmd_unref`); a caller-supplied buffer appears only through a
`PayloadPtr.user` reference inside `send_cmd` and is never freed. -/
structure CxlCmd where
  memdev : CxlMemdev
  refcount : Int
  query_status : Nat
  query_idx : Nat
  query_cmd : Option QueryCommands
  send_cmd : Option CxlSendCmd
  input_payload : Option (List Nat)
  output_payload : Option (List Nat)
  status : Int
deriving DecidableEq

/-- `cxl_cmd_new` (line 440): calloc a command, take a reference, bind
the memdev. -/
def cxl_cmd_new (memdev : CxlMemdev) : CxlCmd :=
  { memdev := memdev, refcount := 1, query_status := CXL_CMD_QUERY_NOT_RUN,
    query_idx := 0, query_cmd := none, send_cmd := none,
    input_payload := none, output_payload := none, status := 0 }

/-- `cxl_cmd_alloc_query` (line 419): replace the query structure with a
fresh zeroed one sized for `num_cmds` entries, with n_commands
pre-set to `num_cmds`. -/
def cxl_cmd_alloc_query (cmd : CxlCmd) (num_cmds : Nat) : CxlCmd :=
  let q : QueryCommands :=
    { n_commands := num_cmds,
      commands := List.replicate num_cmds defaultCommandInfo }
  { cmd with query_cmd := some q }

/-- `alloc_do_query` (line 516): allocate the query structure then issue
one catalog-fetch ioctl.  The oracle `tr` maps the requested capacity to
the structure the kernel writes back (or an OS-level error, in which
case the freshly allocated structure is left in place).  The returned
list records the capacities of the catalog-fetch calls issued. -/
def alloc_do_query (cmd : CxlCmd) (num_cmds : Nat)
    (tr : Nat → Except Int QueryCommands) : Int × CxlCmd × List Nat :=
  let cmd := cxl_cmd_alloc_query cmd num_cmds
  match tr num_cmds with
  | Except.error e => (e, cmd, [num_cmds])
  | Except.ok q => (0, { cmd with query_cmd := some q }, [num_cmds])

/-- `cxl_cmd_do_query` (line 533): no-op when the query status is already
resolved; on NOT_RUN fetch the catalog twice, first with capacity 0 to
learn the firmware-reported count, then sized for that count.  Unknown
status values take the defensive default branch. -/
def cxl_cmd_do_query (cmd : CxlCmd) (tr : Nat → Except Int QueryCommands) :
    Int × CxlCmd × List Nat :=
  if cmd.query_status = CXL_CMD_QUERY_OK then (0, cmd, [])
  else if cmd.query_status = CXL_CMD_QUERY_UNSUPPORTED then (-EOPNOTSUPP, cmd, [])
  else if cmd.query_status = CXL_CMD_QUERY_NOT_RUN then
    let r1 := alloc_do_query cmd 0 tr
    if r1.1 ≠ 0 then r1
    else
      let n := ((r1.2.1.query_cmd).map QueryCommands.n_commands).getD 0
      let r2 := alloc_do_query r1.2.1 n tr
      (r2.1, r2.2.1, r1.2.2 ++ r2.2.2)
  else (-EINVAL, cmd, [])

/-- The scan loop of `cxl_cmd_validate` (line 571): index of the first
catalog entry whose id equals the requested id. -/
def validate_scan : List CommandInfo → Nat → Option Nat
  | [], _ => none
  | c :: rest, cmd_id =>
    if c.id = cmd_id then some 0
    else (validate_scan rest cmd_id).map (fun i => i + 1)

/-- `cxl_cmd_validate` (line 563): linear scan of the cached catalog's
first n_commands entries; on the first match record its index and
resolve to OK, on exhaustion resolve to UNSUPPORTED.  (The C code
dereferences query_cmd unconditionally; it is non-null whenever
validate is reached through the construction pipeline.) -/
def cxl_cmd_validate (cmd : CxlCmd) (cmd_id : Nat) : Int × CxlCmd :=
  let query := cmd.query_cmd.getD { n_commands := 0, commands := [] }
  match validate_scan (query.commands.take query.n_commands) cmd_id with
  | some i => (0, { cmd with query_idx := i, query_status := CXL_CMD_QUERY_OK })
  | none => (-EOPNOTSUPP, { cmd with query_status := CXL_CMD_QUERY_UNSUPPORTED })

/-- `cxl_cmd_set_input_payload` (line 590): reject sizes above the
device maximum or below zero; with no caller buffer allocate a zeroed
library-owned buffer, otherwise store the caller's buffer by reference
(any previously library-owned buffer stays owned and is freed only at
unref); either way overwrite the negotiated input size. -/
def cxl_cmd_set_input_payload (cmd : CxlCmd) (buf : Option (List Nat))
    (size : Int) : Int × CxlCmd :=
  if size > cmd.memdev.payload_max ∨ size < 0 then (-EINVAL, cmd)
  else
    match buf with
    | none =>
      let cmd := { cmd with input_payload := some (List.replicate size.toNat 0) }
      (0, { cmd with send_cmd := cmd.send_cmd.map (fun s =>
          { s with in_payload := PayloadPtr.owned, in_size := size }) })
    | some b =>
      (0, { cmd with send_cmd := cmd.send_cmd.map (fun s =>
          { s with in_payload := PayloadPtr.user b, in_size := size }) })

/-- `cxl_cmd_set_output_payload` (line 618): identical guard and
ownership discipline for the output payload. -/
def cxl_cmd_set_output_payload (cmd : CxlCmd) (buf : Option (List Nat))
    (size : Int) : Int × CxlCmd :=
  if size > cmd.memdev.payload_max ∨ size < 0 then (-EINVAL, cmd)
  else
    match buf with
    | none =>
      let cmd := { cmd with output_payload := some (List.replicate size.toNat 0) }
      (0, { cmd with send_cmd := cmd.send_cmd.map (fun s =>
          { s with out_payload := PayloadPtr.owned, out_size := size }) })
    | some b =>
      (0, { cmd with send_cmd := cmd.send_cmd.map (fun s =>
          { s with out_payload := PayloadPtr.user b, out_size := size }) })

/-- `cxl_cmd_alloc_send` (line 646): allocate the send structure, check
the catalog entry at the recorded index still carries the requested id,
allocate an input buffer when size_in > 0, resolve a negative declared
size_out to the device's maximum payload size (writing it back into the
catalog entry) before allocating the output buffer when positive.
Note: neither declared size is checked against payload_max here. -/
def cxl_cmd_alloc_send (cmd : CxlCmd) (cmd_id : Nat) : Int × CxlCmd :=
  match cmd.query_cmd with
  | none => (-EINVAL, cmd)
  | some query =>
    let cinfo := query.commands.getD cmd.query_idx defaultCommandInfo
    let cmd := { cmd with send_cmd := some emptySendCmd }
    if cinfo.id ≠ cmd_id then (-EINVAL, cmd)
    else
      let cmd := { cmd with send_cmd := some { emptySendCmd with id := cmd_id } }
      let cmd :=
        if 0 < cinfo.size_in then
          { cmd with
            input_payload := some (List.replicate cinfo.size_in.toNat 0),
            send_cmd := cmd.send_cmd.map (fun s =>
              { s with in_payload := PayloadPtr.owned, in_size := cinfo.size_in }) }
        else cmd
      let resolved_out :=
        if cinfo.size_out < 0 then cmd.memdev.payload_max else cinfo.size_out
      let newEntries := query.commands.set cmd.query_idx
          { cinfo with size_out := resolved_out }
      let cmd := { cmd with query_cmd := some { query with commands := newEntries } }
      let cmd :=
        if 0 < resolved_out then
          { cmd with
            output_payload := some (List.replicate resolved_out.toNat 0),
            send_cmd := cmd.send_cmd.map (fun s =>
              { s with out_payload := PayloadPtr.owned, out_size := resolved_out }) }
        else cmd
      (0, cmd)

/-- `cxl_cmd_new_generic` (line 687): new command, then
query → validate → allocate-for-send; any failure unrefs the partial
command and yields NULL.  Result: the NULL/command outcome, the final
command state (visible even on the failure path, before its teardown),
and the catalog-fetch calls issued. -/
def cxl_cmd_new_generic (memdev : CxlMemdev) (cmd_id : Nat)
    (tr : Nat → Except Int QueryCommands) :
    Except Int CxlCmd × CxlCmd × List Nat :=
  let cmd := cxl_cmd_new memdev
  let q := cxl_cmd_do_query cmd tr
  if q.1 ≠ 0 then (Except.error q.1, q.2.1, q.2.2)
  else
    let v := cxl_cmd_validate q.2.1 cmd_id
    if v.1 ≠ 0 then (Except.error v.1, v.2, q.2.2)
    else
      let a := cxl_cmd_alloc_send v.2 cmd_id
      if a.1 ≠ 0 then (Except.error a.1, a.2, q.2.2)
      else (Except.ok a.2, a.2, q.2.2)

/-- The assignment `cmd->send_cmd->raw.opcode = opcode` of
`cxl_cmd_new_raw` (line 851). -/
def setRawOpcode (cmd : CxlCmd) (opcode : Int) : CxlCmd :=
  { cmd with send_cmd := cmd.send_cmd.map (fun s =>
      { s with raw_opcode := opcode }) }

/-- `cxl_cmd_new_raw` (line 836): reject opcode <= 0 (0 is reserved)
with errno EINVAL before the pipeline runs; otherwise run the generic
pipeline for the RAW id and store the caller's opcode into the send
structure. -/
def cxl_cmd_new_raw (memdev : CxlMemdev) (opcode : Int)
    (tr : Nat → Except Int QueryCommands) : Except Int CxlCmd × List Nat :=
  if opcode ≤ 0 then (Except.error EINVAL, [])
  else
    match cxl_cmd_new_generic memdev CXL_MEM_COMMAND_ID_RAW tr with
    | (Except.error rc, _, calls) => (Except.error (-rc), calls)
    | (Except.ok cmd, _, calls) => (Except.ok (setRawOpcode cmd opcode), calls)

/-- Outcome of one `do_cmd` transport attempt as seen by submit:
either an OS-level error (open failure, node mismatch, ioctl errno —
the structure's retval field is left untouched), or ioctl completion
with return value `rc` (>= 0) and the device-written `retval`. -/
inductive TransportResult where
  | osError (e : Int)
  | completed (rc : Int) (retval : Int)
deriving DecidableEq

/-- `cxl_cmd_submit` (line 886): requires query status OK (UNSUPPORTED
returns -EOPNOTSUPP, NOT_RUN and unknown values -EINVAL, without any
transport activity); on OK runs the send ioctl and then unconditionally
copies the send structure's retval field into the command's status
field — that field holds a device-written result exactly when the ioctl
completed without an OS error.  Returns (transport rc, new command,
whether the transport was invoked): the OS-level rc channel is distinct
from the device status captured in `.status`. -/
def cxl_cmd_submit (cmd : CxlCmd) (tr : TransportResult) :
    Int × CxlCmd × Bool :=
  if cmd.query_status = CXL_CMD_QUERY_OK then
    let r : Int × Option CxlSendCmd :=
      match tr, cmd.send_cmd with
      | TransportResult.osError e, s => (e, s)
      | TransportResult.completed rc0 rv, some s => (rc0, some { s with retval := rv })
      | TransportResult.completed rc0 _, none => (rc0, none)
    let st := (r.2.map CxlSendCmd.retval).getD 0
    (r.1, { cmd with send_cmd := r.2, status := st }, true)
  else if cmd.query_status = CXL_CMD_QUERY_UNSUPPORTED then (-EOPNOTSUPP, cmd, false)
  else (-EINVAL, cmd, false)

/-- OS responses consumed by one `do_cmd` run: the open(2) outcome
(`some e` = failed with errno e), the fstat outcome and the stat'ed
node's type and device numbers, and the ioctl return used when the node
checks pass. -/
structure OsWorld where
  openErr : Option Int
  statOk : Bool
  isChr : Bool
  stMajor : Nat
  stMinor : Nat
  ioctlRc : Int
deriving DecidableEq

/-- Observable outcome of `do_cmd`: return code, whether the ioctl was
invoked, whether the device node was opened, and whether the descriptor
was closed. -/
structure DoCmdResult where
  rc : Int
  ioctlCalled : Bool
  fdOpened : Bool
  fdClosed : Bool
deriving DecidableEq

/-- `do_cmd` (line 479): open /dev/cxl/<devname>; on open failure return
-errno.  Otherwise the ioctl runs only if fstat succeeded, the node is a
character device, and its major/minor equal the handle's recorded
values; any mismatch yields -ENXIO_ec without the ioctl.  close(fd) runs on
both post-open paths. -/
def do_cmd (memdev : CxlMemdev) (w : OsWorld) : DoCmdResult :=
  match w.openErr with
  | some e => { rc := -e, ioctlCalled := false, fdOpened := false, fdClosed := false }
  | none =>
    if w.statOk ∧ w.isChr ∧ w.stMajor = memdev.major ∧ w.stMinor = memdev.minor then
      { rc := w.ioctlRc, ioctlCalled := true, fdOpened := true, fdClosed := true }
    else
      { rc := -ENXIO_ec, ioctlCalled := false, fdOpened := true, fdClosed := true }

/-- LSA op selectors (enum lsa_op, line 959). -/
def LSA_OP_GET : Nat := 0

def LSA_OP_SET : Nat := 1

def LSA_OP_ZERO : Nat := 2

/-- Which command-constructor `lsa_op` invoked, with its arguments:
`cxl_cmd_new_get_lsa(memdev, offset, length)` or
`cxl_cmd_new_set_lsa(memdev, buf, offset, length)`. -/
inductive LsaCmdReq where
  | getLsa (offset length : Nat)
  | setLsa (buf : List Nat) (offset length : Nat)
deriving DecidableEq

/-- Observable trace of one `lsa_op` run: return code, the constructor
request issued (none if control never reached one), the transient zero
buffer allocated by ZERO, whether `free(zero_buf)` executed, and the
firmware-status annotation (`some (DEVICE_ERRORS[status])` when a
non-zero device status was reported; the inner `none` is an
out-of-bounds table read). -/
structure LsaTrace where
  rc : Int
  req : Option LsaCmdReq
  zero_buf : Option (List Nat)
  zero_buf_freed : Bool
  fw_note : Option (Option String)
deriving DecidableEq

/-- Common tail of `lsa_op` once a command exists: submit; on transport
failure propagate; then read the mailbox status, mapping any non-zero
status to -ENXIO_ec annotated with the raw `DEVICE_ERRORS[status]` read. -/
def lsa_op_finish (cmd : CxlCmd) (tr : TransportResult) :
    Int × Option (Option String) :=
  let s := cxl_cmd_submit cmd tr
  if s.1 < 0 then (s.1, none)
  else
    let mbox := s.2.1.status
    if mbox ≠ 0 then (-ENXIO_ec, some (deviceErrorLookup mbox))
    else (0, none)

/-- The SET arm of `lsa_op` (shared by ZERO through fallthrough): build
the SET-LSA command for `buf`; a NULL command frees the transient buffer
and fails with -ENOMEM; otherwise run the common tail.  Every exit here
passes through `free(zero_buf)`. -/
def lsa_op_set_tail (buf : List Nat) (offset len : Nat)
    (zb : Option (List Nat)) (mk : LsaCmdReq → Option CxlCmd)
    (tr : TransportResult) : LsaTrace :=
  match mk (LsaCmdReq.setLsa buf offset len) with
  | none =>
      { rc := -ENOMEM, req := some (LsaCmdReq.setLsa buf offset len),
        zero_buf := zb, zero_buf_freed := true, fw_note := none }
  | some cmd =>
      let f := lsa_op_finish cmd tr
      { rc := f.1, req := some (LsaCmdReq.setLsa buf offset len),
        zero_buf := zb, zero_buf_freed := true, fw_note := f.2 }

/-- `lsa_op` (line 965).  GET and SET require a non-NULL buffer.  GET
resolves length 0 to the device's LSA size, builds the GET-LSA command,
installs the caller's buffer as output payload, and runs the tail.
ZERO resolves length 0 to the LSA size, allocates a zero-filled
transient buffer of that length and falls through into SET with it.
`mk` stands for the command constructors (cxl_cmd_new_get_lsa /
cxl_cmd_new_set_lsa, NULL on failure); `tr` is the submit transport
outcome. -/
def lsa_op (memdev : CxlMemdev) (op : Nat) (buf : Option (List Nat))
    (length offset : Nat) (mk : LsaCmdReq → Option CxlCmd)
    (tr : TransportResult) : LsaTrace :=
  if op ≠ LSA_OP_ZERO ∧ buf = none then
    { rc := -EINVAL, req := none, zero_buf := none,
      zero_buf_freed := false, fw_note := none }
  else if op = LSA_OP_GET then
    let len := if length = 0 then memdev.lsa_size else length
    match mk (LsaCmdReq.getLsa offset len) with
    | none =>
        { rc := -ENOMEM, req := some (LsaCmdReq.getLsa offset len),
          zero_buf := none, zero_buf_freed := false, fw_note := none }
    | some cmd =>
        let sp := cxl_cmd_set_output_payload cmd (some (buf.getD []))
            (Int.ofNat len)
        if sp.1 ≠ 0 then
          { rc := sp.1, req := some (LsaCmdReq.getLsa offset len),
            zero_buf := none, zero_buf_freed := true, fw_note := none }
        else
          let f := lsa_op_finish sp.2 tr
          { rc := f.1, req := some (LsaCmdReq.getLsa offset len),
            zero_buf := none, zero_buf_freed := true, fw_note := f.2 }
  else if op = LSA_OP_SET then
    lsa_op_set_tail (buf.getD []) offset length none mk tr
  else if op = LSA_OP_ZERO then
    let len := if length = 0 then memdev.lsa_size else length
    let zb := List.replicate len (0 : Nat)
    lsa_op_set_tail zb offset len (some zb) mk tr
  else
    { rc := -EOPNOTSUPP, req := none, zero_buf := none,
      zero_buf_freed := false, fw_note := none }

/-! Concrete fixtures used by witnesses and counterexamples. -/

/-- Fixture device: node 4:7, 4096-byte mailbox, 128-byte LSA. -/
def mdFix : CxlMemdev := { major := 4, minor := 7, payload_max := 4096, lsa_size := 128 }

/-- Fixture catalog: one entry, GET_LSA with size_in 8 and the -1
size_out sentinel. -/
def qFix : QueryCommands :=
  { n_commands := 1,
    commands := [{ id := 6, size_in := 8, size_out := -1, flags := 0 }] }

/-- Fixture command in the resolved-OK state with an allocated send
structure. -/
def cmdOkFix : CxlCmd :=
  { memdev := mdFix, refcount := 1, query_status := CXL_CMD_QUERY_OK,
    query_idx := 0, query_cmd := some qFix, send_cmd := some emptySendCmd,
    input_payload := none, output_payload := none, status := 0 }

/-- Fixture LSA command constructor: always yields `cmdOkFix`. -/
def mkFix : LsaCmdReq → Option CxlCmd := fun _ => some cmdOkFix

/-- The 2-entry fixture catalog (GET_LSA and SET_LSA). -/
def qFullFix : QueryCommands :=
  { n_commands := 2,
    commands := [{ id := 6, size_in := 8, size_out := -1, flags := 0 },
                 { id := 8, size_in := 4, size_out := 0, flags := 0 }] }

/-- Fixture catalog-fetch transport: reports 2 supported commands, then
serves the 2-entry catalog. -/
def trFix : Nat → Except Int QueryCommands := fun n =>
  if n = 0 then Except.ok { n_commands := 2, commands := [] }
  else Except.ok qFullFix

/-- Fixture device with a 4-byte mailbox maximum, for the C3
counterexample. -/
def mdSmallFix : CxlMemdev := { major := 0, minor := 0, payload_max := 4, lsa_size := 16 }

/-- Fixture command whose cached catalog declares size_in = 5 against a
device maximum of 4 (firmware-supplied sizes are not clamped by
`cxl_cmd_alloc_send`). -/
def cmdBigInFix : CxlCmd :=
  let q : QueryCommands :=
    { n_commands := 1,
      commands := [{ id := 1, size_in := 5, size_out := 0, flags := 0 }] }
  { memdev := mdSmallFix, refcount := 1, query_status := CXL_CMD_QUERY_OK,
    query_idx := 0, query_cmd := some q, send_cmd := none,
    input_payload := none, output_payload := none, status := 0 }

/-- The send structure produced by `cxl_cmd_set_input_payload cmdOkFix
none 4`. -/
def sendInFix : CxlSendCmd :=
  { emptySendCmd with in_payload := PayloadPtr.owned, in_size := 4 }

/-- OS world in which the re-stat'ed node's minor number (9) differs
from the handle's recorded minor (7). -/
def wMismatchFix : OsWorld :=
  { openErr := none, statOk := true, isChr := true, stMajor := 4, stMinor := 9,
    ioctlRc := 0 }

/-! Claim theorems. -/

/-- C1: status decoding is NOT total in the source.  The table has
exactly 23 entries and every code 0-22 decodes, but the raw
`DEVICE_ERRORS[rc]` read used by `lsa_op`'s failure annotation is out of
bounds for code 23 (modelled as `none`), where the spec's total decoder
must yield "unknown status": a concrete LSA run whose device reports
status 23 drives the annotation into the out-of-bounds read. -/
theorem C1_status_decode_not_total :
    DEVICE_ERRORS.length = 23 ∧
    (List.range 23).all (fun c => (deviceErrorLookup (Int.ofNat c)).isSome) = true ∧
    deviceErrorLookup 23 = none ∧
    spec_status_decode 23 = "unknown status" ∧
    (lsa_op mdFix LSA_OP_GET (some [0]) 1 0 mkFix
        (TransportResult.completed 0 23)).fw_note = some none := by
  refine ⟨by decide, by decide, by decide, by decide, by decide⟩

/-- C8: before the ioctl, `do_cmd` re-stats the opened node; whenever
open succeeded but the node's major/minor no longer match the handle's
recorded values the call fails with -ENXIO_ec and the ioctl is never
invoked; and every run that opened the descriptor also closes it. -/
theorem C8_node_identity_check (memdev : CxlMemdev) (w : OsWorld) :
    (w.openErr = none →
      (w.stMajor ≠ memdev.major ∨ w.stMinor ≠ memdev.minor) →
      (do_cmd memdev w).rc = -ENXIO_ec ∧ (do_cmd memdev w).ioctlCalled = false) ∧
    ((do_cmd memdev w).fdOpened = true → (do_cmd memdev w).fdClosed = true) := by
  constructor
  · intro hopen hmm
    unfold do_cmd
    rw [hopen]
    have hcond : ¬(w.statOk ∧ w.isChr ∧ w.stMajor = memdev.major ∧
        w.stMinor = memdev.minor) := by
      rcases hmm with h | h
      · intro hc
        exact h hc.2.2.1
      · intro hc
        exact h hc.2.2.2
    simp [hcond]
  · unfold do_cmd
    cases w.openErr with
    | some e =>
      intro h
      simp at h
    | none =>
      intro _
      by_cases hc : w.statOk = true ∧ w.isChr = true ∧
          w.stMajor = memdev.major ∧ w.stMinor = memdev.minor
      · simp [hc]
      · simp [hc]

/-- C8 witness: on the fixture world whose stat'ed minor is 9 while the
handle records 7, `do_cmd` fails with -ENXIO_ec and never reaches the
ioctl. -/
theorem C8_node_identity_check_witness :
    (do_cmd mdFix wMismatchFix).rc = -ENXIO_ec ∧
    (do_cmd mdFix wMismatchFix).ioctlCalled = false :=
  (C8_node_identity_check mdFix wMismatchFix).1 rfl (Or.inr (by decide))

/-- C9: `lsa_op` GET and SET reject a NULL buffer with -EINVAL before
building anything; GET with length 0 requests the device's full LSA
size; ZERO with length 0 allocates a zero-filled transient buffer of the
full LSA size, delegates to the SET constructor with exactly that
buffer, and frees the transient buffer on every continuation (any
constructor or submit outcome). -/
theorem C9_lsa_length_defaults (memdev : CxlMemdev) (offset : Nat)
    (mk : LsaCmdReq → Option CxlCmd) (tr : TransportResult) :
    (∀ length, lsa_op memdev LSA_OP_GET none length offset mk tr =
      { rc := -EINVAL, req := none, zero_buf := none,
        zero_buf_freed := false, fw_note := none }) ∧
    (∀ length, lsa_op memdev LSA_OP_SET none length offset mk tr =
      { rc := -EINVAL, req := none, zero_buf := none,
        zero_buf_freed := false, fw_note := none }) ∧
    (∀ b, (lsa_op memdev LSA_OP_GET (some b) 0 offset mk tr).req =
      some (LsaCmdReq.getLsa offset memdev.lsa_size)) ∧
    (∀ buf,
      (lsa_op memdev LSA_OP_ZERO buf 0 offset mk tr).req =
        some (LsaCmdReq.setLsa (List.replicate memdev.lsa_size 0) offset
          memdev.lsa_size) ∧
      (lsa_op memdev LSA_OP_ZERO buf 0 offset mk tr).zero_buf =
        some (List.replicate memdev.lsa_size 0) ∧
      (lsa_op memdev LSA_OP_ZERO buf 0 offset mk tr).zero_buf_freed = true) := by
  refine ⟨fun length => ?_, fun length => ?_, fun b => ?_, fun buf => ?_⟩
  · simp [lsa_op, LSA_OP_GET, LSA_OP_ZERO]
  · simp [lsa_op, LSA_OP_SET, LSA_OP_ZERO]
  · simp only [lsa_op, LSA_OP_GET, LSA_OP_ZERO]
    simp
    cases mk (LsaCmdReq.getLsa offset memdev.lsa_size) with
    | none => simp
    | some cmd => split <;> first | rfl | (split <;> rfl)
  · simp only [lsa_op, lsa_op_set_tail, LSA_OP_GET, LSA_OP_SET, LSA_OP_ZERO]
    simp
    cases mk (LsaCmdReq.setLsa (List.replicate memdev.lsa_size 0) offset
        memdev.lsa_size) with
    | none => simp
    | some cmd => simp

/-- C10: `cxl_cmd_new_raw` rejects every opcode <= 0 (not only the
reserved 0) with errno EINVAL and issues no catalog-fetch call; for a
strictly positive opcode it runs the generic pipeline for the RAW id and,
on success, stores the caller's opcode into the send structure. -/
theorem C10_raw_opcode_guard (memdev : CxlMemdev) (opcode : Int)
    (tr : Nat → Except Int QueryCommands) :
    (opcode ≤ 0 → cxl_cmd_new_raw memdev opcode tr = (Except.error EINVAL, [])) ∧
    (∀ cmd st calls, 0 < opcode →
      cxl_cmd_new_generic memdev CXL_MEM_COMMAND_ID_RAW tr =
        (Except.ok cmd, st, calls) →
      cxl_cmd_new_raw memdev opcode tr =
        (Except.ok (setRawOpcode cmd opcode), calls)) := by
  constructor
  · intro h
    unfold cxl_cmd_new_raw
    rw [if_pos h]
  · intro cmd st calls hpos hgen
    unfold cxl_cmd_new_raw
    rw [if_neg (by omega), hgen]

/-- C10 witness: opcode 0 is rejected with errno EINVAL and an empty
transport-call trace on the fixture device. -/
theorem C10_raw_opcode_guard_witness :
    cxl_cmd_new_raw mdFix 0 trFix = (Except.error EINVAL, []) :=
  (C10_raw_opcode_guard mdFix 0 trFix).1 (by decide)

/-- C2: submit requires the resolved-OK state: UNSUPPORTED returns
-EOPNOTSUPP and NOT_RUN returns -EINVAL, both without touching the
transport and without changing the command; on OK, when the ioctl
completes without an OS error the device-written retval is captured into
the command's status field while the transport rc is returned on its own
channel; on an OS-level transport error the status assignment copies the
send structure's untouched prior retval field — no device-written result
is captured, and the OS error is returned distinctly. -/
theorem C2_submit_state_machine (cmd : CxlCmd) (tr : TransportResult) :
    (cmd.query_status = CXL_CMD_QUERY_UNSUPPORTED →
      cxl_cmd_submit cmd tr = (-EOPNOTSUPP, cmd, false)) ∧
    (cmd.query_status = CXL_CMD_QUERY_NOT_RUN →
      cxl_cmd_submit cmd tr = (-EINVAL, cmd, false)) ∧
    (∀ rc0 rv s, cmd.query_status = CXL_CMD_QUERY_OK →
      tr = TransportResult.completed rc0 rv → cmd.send_cmd = some s →
      (cxl_cmd_submit cmd tr).1 = rc0 ∧
      (cxl_cmd_submit cmd tr).2.1.status = rv ∧
      (cxl_cmd_submit cmd tr).2.2 = true) ∧
    (∀ e, cmd.query_status = CXL_CMD_QUERY_OK → tr = TransportResult.osError e →
      (cxl_cmd_submit cmd tr).1 = e ∧
      (cxl_cmd_submit cmd tr).2.1.status =
        (cmd.send_cmd.map CxlSendCmd.retval).getD 0 ∧
      (cxl_cmd_submit cmd tr).2.2 = true) := by
  refine ⟨?_, ?_, ?_, ?_⟩
  · intro h
    simp [cxl_cmd_submit, h, CXL_CMD_QUERY_OK, CXL_CMD_QUERY_UNSUPPORTED]
  · intro h
    simp [cxl_cmd_submit, h, CXL_CMD_QUERY_OK, CXL_CMD_QUERY_UNSUPPORTED,
      CXL_CMD_QUERY_NOT_RUN]
  · intro rc0 rv s h htr hs
    subst htr
    simp [cxl_cmd_submit, h, hs]
  · intro e h htr
    subst htr
    cases hs : cmd.send_cmd with
    | none => simp [cxl_cmd_submit, h, hs]
    | some s => simp [cxl_cmd_submit, h, hs]

/-- C2 witness: on the fixture OK-state command, an ioctl that completes
with rc 0 and device retval 7 leaves transport rc 0 and captures status
7. -/
theorem C2_submit_state_machine_witness :
    (cxl_cmd_submit cmdOkFix (TransportResult.completed 0 7)).1 = 0 ∧
    (cxl_cmd_submit cmdOkFix (TransportResult.completed 0 7)).2.1.status = 7 := by
  have h := (C2_submit_state_machine cmdOkFix
      (TransportResult.completed 0 7)).2.2.1 0 7 emptySendCmd rfl rfl rfl
  exact ⟨h.1, h.2.1⟩

/-- C5: `cxl_cmd_do_query` is a transport no-op on a resolved command
(state OK returns 0, UNSUPPORTED returns -EOPNOTSUPP, both with an empty
catalog-fetch trace and the command unchanged); on NOT_RUN, once the
first fetch succeeds, exactly two catalog-fetch calls are issued: the
first with capacity 0 and the second sized to the firmware-reported
command count. -/
theorem C5_query_idempotent (cmd : CxlCmd)
    (tr : Nat → Except Int QueryCommands) :
    (cmd.query_status = CXL_CMD_QUERY_OK →
      cxl_cmd_do_query cmd tr = (0, cmd, [])) ∧
    (cmd.query_status = CXL_CMD_QUERY_UNSUPPORTED →
      cxl_cmd_do_query cmd tr = (-EOPNOTSUPP, cmd, [])) ∧
    (∀ q0, cmd.query_status = CXL_CMD_QUERY_NOT_RUN → tr 0 = Except.ok q0 →
      (cxl_cmd_do_query cmd tr).2.2 = [0, q0.n_commands]) := by
  refine ⟨?_, ?_, ?_⟩
  · intro h
    simp [cxl_cmd_do_query, h, CXL_CMD_QUERY_OK]
  · intro h
    simp [cxl_cmd_do_query, h, CXL_CMD_QUERY_OK, CXL_CMD_QUERY_UNSUPPORTED]
  · intro q0 h htr
    simp only [cxl_cmd_do_query, h, CXL_CMD_QUERY_OK, CXL_CMD_QUERY_UNSUPPORTED,
      CXL_CMD_QUERY_NOT_RUN]
    norm_num
    simp only [alloc_do_query, cxl_cmd_alloc_query, htr]
    norm_num
    cases htr2 : tr q0.n_commands <;> simp [htr2]

/-- C5 witness: a fresh command on the fixture device issues exactly the
two catalog-fetch calls, capacities 0 then 2 (the reported count). -/
theorem C5_query_idempotent_witness :
    (cxl_cmd_do_query (cxl_cmd_new mdFix) trFix).2.2 = [0, 2] :=
  (C5_query_idempotent (cxl_cmd_new mdFix) trFix).2.2
    { n_commands := 2, commands := [] } rfl rfl

/-- C7: both payload setters reject any size below 0 or above the
device's declared maximum (for arbitrary maximums) with -EINVAL, leaving
the command unchanged; an accepted size with no caller buffer allocates
a zeroed library-owned buffer of that size, while a caller buffer is
stored by reference only (the library-owned buffer fields, the only ones
freed at unref, are untouched); both paths overwrite the previously
negotiated size with the requested one. -/
theorem C7_payload_setter_guards (cmd : CxlCmd) (size : Int) :
    ((size < 0 ∨ cmd.memdev.payload_max < size) → ∀ buf,
      cxl_cmd_set_input_payload cmd buf size = (-EINVAL, cmd) ∧
      cxl_cmd_set_output_payload cmd buf size = (-EINVAL, cmd)) ∧
    (0 ≤ size → size ≤ cmd.memdev.payload_max →
      ((cxl_cmd_set_input_payload cmd none size).1 = 0 ∧
       (cxl_cmd_set_input_payload cmd none size).2.input_payload =
         some (List.replicate size.toNat 0) ∧
       (cxl_cmd_set_input_payload cmd none size).2.send_cmd =
         cmd.send_cmd.map (fun s =>
           { s with in_payload := PayloadPtr.owned, in_size := size })) ∧
      (∀ b, (cxl_cmd_set_input_payload cmd (some b) size).1 = 0 ∧
       (cxl_cmd_set_input_payload cmd (some b) size).2.input_payload =
         cmd.input_payload ∧
       (cxl_cmd_set_input_payload cmd (some b) size).2.output_payload =
         cmd.output_payload ∧
       (cxl_cmd_set_input_payload cmd (some b) size).2.send_cmd =
         cmd.send_cmd.map (fun s =>
           { s with in_payload := PayloadPtr.user b, in_size := size })) ∧
      ((cxl_cmd_set_output_payload cmd none size).1 = 0 ∧
       (cxl_cmd_set_output_payload cmd none size).2.output_payload =
         some (List.replicate size.toNat 0) ∧
       (cxl_cmd_set_output_payload cmd none size).2.send_cmd =
         cmd.send_cmd.map (fun s =>
           { s with out_payload := PayloadPtr.owned, out_size := size })) ∧
      (∀ b, (cxl_cmd_set_output_payload cmd (some b) size).1 = 0 ∧
       (cxl_cmd_set_output_payload cmd (some b) size).2.output_payload =
         cmd.output_payload ∧
       (cxl_cmd_set_output_payload cmd (some b) size).2.input_payload =
         cmd.input_payload ∧
       (cxl_cmd_set_output_payload cmd (some b) size).2.send_cmd =
         cmd.send_cmd.map (fun s =>
           { s with out_payload := PayloadPtr.user b, out_size := size }))) := by
  constructor
  · intro hbad buf
    have hc : size > cmd.memdev.payload_max ∨ size < 0 := by
      rcases hbad with h | h
      · exact Or.inr h
      · exact Or.inl h
    constructor
    · simp [cxl_cmd_set_input_payload, hc]
    · simp [cxl_cmd_set_output_payload, hc]
  · intro h0 hmax
    have hc : ¬(size > cmd.memdev.payload_max ∨ size < 0) := by omega
    refine ⟨?_, fun b => ?_, ?_, fun b => ?_⟩
    · simp [cxl_cmd_set_input_payload, hc]
    · simp [cxl_cmd_set_input_payload, hc]
    · simp [cxl_cmd_set_output_payload, hc]
    · simp [cxl_cmd_set_output_payload, hc]

/-- C7 witness: size 4 within the fixture maximum 4096 is accepted and a
4-byte zeroed buffer is allocated and owned; size -1 is rejected. -/
theorem C7_payload_setter_guards_witness :
    ((cxl_cmd_set_input_payload cmdOkFix none 4).1 = 0 ∧
      (cxl_cmd_set_input_payload cmdOkFix none 4).2.input_payload =
        some (List.replicate 4 0)) ∧
    cxl_cmd_set_input_payload cmdOkFix none (-1) = (-EINVAL, cmdOkFix) := by
  constructor
  · have h := ((C7_payload_setter_guards cmdOkFix 4).2 (by decide) (by decide)).1
    exact ⟨h.1, h.2.1⟩
  · exact ((C7_payload_setter_guards cmdOkFix (-1)).1 (Or.inl (by decide)) none).1

/-- The scan loop finds no index exactly when no entry of the list
carries the requested id (helper for C6). -/
theorem validate_scan_eq_none_iff (cmd_id : Nat) :
    ∀ l : List CommandInfo, validate_scan l cmd_id = none ↔ ∀ e ∈ l, e.id ≠ cmd_id := by
  intro l
  induction l with
  | nil => simp [validate_scan]
  | cons c rest ih =>
    by_cases hc : c.id = cmd_id
    · simp [validate_scan, hc]
    · rw [validate_scan, if_neg hc]
      simp only [Option.map_eq_none', ih, List.mem_cons]
      constructor
      · intro h e he
        rcases he with he | he
        · rw [he]; exact hc
        · exact h e he
      · intro h e he
        exact h e (Or.inr he)

/-- When the scan yields index i, the entry at i carries the requested
id and every earlier entry does not: the scan returns the first match
(helper for C6). -/
theorem validate_scan_some_spec (cmd_id : Nat) :
    ∀ (l : List CommandInfo) (i : Nat), validate_scan l cmd_id = some i →
      ∃ e, l.get? i = some e ∧ e.id = cmd_id ∧
        ∀ j, j < i → ∀ e2, l.get? j = some e2 → e2.id ≠ cmd_id := by
  intro l
  induction l with
  | nil => intro i h; simp [validate_scan] at h
  | cons c rest ih =>
    intro i h
    by_cases hc : c.id = cmd_id
    · rw [validate_scan, if_pos hc] at h
      have hi : i = 0 := by
        cases h
        rfl
      subst hi
      exact ⟨c, rfl, hc, fun j hj e2 _ => absurd hj (Nat.not_lt_zero j)⟩
    · rw [validate_scan, if_neg hc] at h
      cases hsc : validate_scan rest cmd_id with
      | none => rw [hsc] at h; simp at h
      | some i0 =>
        rw [hsc] at h
        simp only [Option.map_some'] at h
        have hi : i = i0 + 1 := by
          cases h
          rfl
        subst hi
        obtain ⟨e, he, heid, hmin⟩ := ih i0 hsc
        refine ⟨e, by simpa using he, heid, ?_⟩
        intro j hj e2 hje2
        cases j with
        | zero =>
          simp only [List.get?] at hje2
          cases hje2
          exact hc
        | succ j0 =>
          have hj0 : j0 < i0 := by omega
          exact hmin j0 hj0 e2 (by simpa using hje2)

/-- C3 counterexample: the claimed invariant fails on allocate-for-send.
On a device with payload_max 4 whose cached catalog declares size_in 5,
`cxl_cmd_alloc_send` succeeds (rc 0) and negotiates an input payload of
size 5, exceeding the device maximum: the declared catalog sizes are
never checked against payload_max there. -/
theorem C3_alloc_send_exceeds_payload_max :
    (cxl_cmd_alloc_send cmdBigInFix 1).1 = 0 ∧
    ((cxl_cmd_alloc_send cmdBigInFix 1).2.send_cmd.map CxlSendCmd.in_size).getD 0 = 5 ∧
    cmdBigInFix.memdev.payload_max = 4 := by
  refine ⟨by decide, by decide, by decide⟩

/-- C3 amended: the payload-size invariant holds for setInputPayload and
setOutputPayload unconditionally (any size they accept is within the
device maximum), and for allocate-for-send only under the additional
premise that the firmware catalog's declared sizes for the matched entry
are themselves within the device maximum (which alloc never checks); the
-1 size_out sentinel resolves to exactly the maximum and so respects the
bound. -/
theorem C3_payload_size_invariant :
    (∀ (cmd : CxlCmd) (buf : Option (List Nat)) (size : Int) (s : CxlSendCmd),
      (cxl_cmd_set_input_payload cmd buf size).1 = 0 →
      (cxl_cmd_set_input_payload cmd buf size).2.send_cmd = some s →
      s.in_size ≤ cmd.memdev.payload_max) ∧
    (∀ (cmd : CxlCmd) (buf : Option (List Nat)) (size : Int) (s : CxlSendCmd),
      (cxl_cmd_set_output_payload cmd buf size).1 = 0 →
      (cxl_cmd_set_output_payload cmd buf size).2.send_cmd = some s →
      s.out_size ≤ cmd.memdev.payload_max) ∧
    (∀ (cmd : CxlCmd) (q : QueryCommands) (cmd_id : Nat),
      cmd.query_cmd = some q →
      (q.commands.getD cmd.query_idx defaultCommandInfo).size_in ≤
        cmd.memdev.payload_max →
      (q.commands.getD cmd.query_idx defaultCommandInfo).size_out ≤
        cmd.memdev.payload_max →
      0 ≤ cmd.memdev.payload_max →
      ((cxl_cmd_alloc_send cmd cmd_id).2.send_cmd.map CxlSendCmd.in_size).getD 0 ≤
        cmd.memdev.payload_max ∧
      ((cxl_cmd_alloc_send cmd cmd_id).2.send_cmd.map CxlSendCmd.out_size).getD 0 ≤
        cmd.memdev.payload_max) := by
  refine ⟨?_, ?_, ?_⟩
  · intro cmd buf size s h0 hs
    by_cases hg : size > cmd.memdev.payload_max ∨ size < 0
    · simp [cxl_cmd_set_input_payload, hg, EINVAL] at h0
    · cases buf <;> simp only [cxl_cmd_set_input_payload, hg, ite_false, if_false] at hs <;>
        cases hc : cmd.send_cmd <;> rw [hc] at hs <;> simp at hs <;>
          (try rw [← hs.2]) <;> (try rw [← hs]) <;> simp <;> omega
  · intro cmd buf size s h0 hs
    by_cases hg : size > cmd.memdev.payload_max ∨ size < 0
    · simp [cxl_cmd_set_output_payload, hg, EINVAL] at h0
    · cases buf <;> simp only [cxl_cmd_set_output_payload, hg, ite_false, if_false] at hs <;>
        cases hc : cmd.send_cmd <;> rw [hc] at hs <;> simp at hs <;>
          (try rw [← hs.2]) <;> (try rw [← hs]) <;> simp <;> omega
  · intro cmd q cmd_id hq hsin hsout hmax
    by_cases hidm : (q.commands.getD cmd.query_idx defaultCommandInfo).id = cmd_id
    · constructor <;>
        simp only [cxl_cmd_alloc_send, hq, hidm, ne_eq, not_true_eq_false,
          if_false, ite_false] <;>
        (repeat' split) <;>
        simp_all [emptySendCmd] <;> omega
    · constructor <;>
        simp only [cxl_cmd_alloc_send, hq, hidm, ne_eq, not_false_eq_true,
          if_true, ite_true, Option.map_some', Option.getD_some, emptySendCmd] <;>
        omega

/-- C3 witness: on the fixture command whose catalog entry declares
sizes 8 and -1 under a 4096 maximum, allocate-for-send respects the
bound. -/
theorem C3_payload_size_invariant_witness :
    ((cxl_cmd_alloc_send cmdOkFix 6).2.send_cmd.map CxlSendCmd.in_size).getD 0 ≤
      cmdOkFix.memdev.payload_max ∧
    ((cxl_cmd_alloc_send cmdOkFix 6).2.send_cmd.map CxlSendCmd.out_size).getD 0 ≤
      cmdOkFix.memdev.payload_max :=
  C3_payload_size_invariant.2.2 cmdOkFix qFix 6 rfl (by decide) (by decide) (by decide)

/-- C4: for a matched catalog entry declaring size_out = -1, the
sentinel is resolved to the device's maximum payload size and written
back into the catalog entry before any allocation; allocation then
succeeds with the negotiated output size equal to exactly that maximum,
and (whenever the maximum is positive) an output buffer of exactly that
size. -/
theorem C4_size_out_sentinel (cmd : CxlCmd) (q : QueryCommands) (cmd_id : Nat)
    (hq : cmd.query_cmd = some q)
    (hid : (q.commands.getD cmd.query_idx defaultCommandInfo).id = cmd_id)
    (hout : (q.commands.getD cmd.query_idx defaultCommandInfo).size_out = -1)
    (hmax : 0 ≤ cmd.memdev.payload_max) :
    (cxl_cmd_alloc_send cmd cmd_id).1 = 0 ∧
    ((cxl_cmd_alloc_send cmd cmd_id).2.send_cmd.map CxlSendCmd.out_size).getD (-1) =
      cmd.memdev.payload_max ∧
    (0 < cmd.memdev.payload_max →
      (cxl_cmd_alloc_send cmd cmd_id).2.output_payload =
        some (List.replicate cmd.memdev.payload_max.toNat 0)) ∧
    ((cxl_cmd_alloc_send cmd cmd_id).2.query_cmd.map QueryCommands.commands) =
      some (q.commands.set cmd.query_idx
        { q.commands.getD cmd.query_idx defaultCommandInfo with
          size_out := cmd.memdev.payload_max }) := by
  rcases lt_or_eq_of_le hmax with hp | hp
  · by_cases hin : 0 < (q.commands.getD cmd.query_idx defaultCommandInfo).size_in <;>
      refine ⟨?_, ?_, ?_, ?_⟩ <;>
        simp only [cxl_cmd_alloc_send, hq, hid, hout, hin, hp, ne_eq,
          not_true_eq_false, if_false, ite_false, ite_true, if_true,
          not_false_eq_true, Option.map_some, Option.getD_some,
          show ((-1 : Int) < 0) = True by simp, show (0 < (-1 : Int)) = False by simp] <;>
        first
          | rfl
          | (intro _; rfl)
          | simp
  · by_cases hin : 0 < (q.commands.getD cmd.query_idx defaultCommandInfo).size_in <;>
      refine ⟨?_, ?_, ?_, ?_⟩ <;>
        simp only [cxl_cmd_alloc_send, hq, hid, hout, hin, ← hp, ne_eq,
          not_true_eq_false, if_false, ite_false, ite_true, if_true,
          not_false_eq_true, Option.map_some, Option.getD_some,
          lt_self_iff_false,
          show ((-1 : Int) < 0) = True by simp, show (0 < (-1 : Int)) = False by simp] <;>
        first
          | rfl
          | (intro h; exact absurd h (lt_irrefl 0))
          | simp [emptySendCmd]

/-- C4 witness: the fixture entry (id 6, size_out -1) on the 4096-byte
device negotiates output size 4096 with a 4096-byte zeroed buffer. -/
theorem C4_size_out_sentinel_witness :
    (cxl_cmd_alloc_send cmdOkFix 6).1 = 0 ∧
    ((cxl_cmd_alloc_send cmdOkFix 6).2.send_cmd.map CxlSendCmd.out_size).getD (-1) =
      cmdOkFix.memdev.payload_max :=
  have h := C4_size_out_sentinel cmdOkFix qFix 6 rfl (by decide) (by decide) (by decide)
  ⟨h.1, h.2.1⟩

/-- C6: validate linearly scans the first n_commands cached entries:
its post-state is UNSUPPORTED exactly when no scanned entry carries the
requested id (exhaustion is the only path to UNSUPPORTED); when the
scan finds index i, that index is recorded, the state resolves to OK,
the entry at i carries the id and every earlier entry does not; on
exhaustion validate returns -EOPNOTSUPP; and generic construction for
an id absent from the fetched catalog fails with -EOPNOTSUPP, resolves
the command to UNSUPPORTED, and allocates no payload buffers. -/
theorem C6_validate_first_match (cmd : CxlCmd) (q : QueryCommands) (cmd_id : Nat)
    (hq : cmd.query_cmd = some q) :
    ((cxl_cmd_validate cmd cmd_id).2.query_status = CXL_CMD_QUERY_UNSUPPORTED ↔
      ∀ e ∈ q.commands.take q.n_commands, e.id ≠ cmd_id) ∧
    (∀ i, validate_scan (q.commands.take q.n_commands) cmd_id = some i →
      (cxl_cmd_validate cmd cmd_id).1 = 0 ∧
      (cxl_cmd_validate cmd cmd_id).2.query_idx = i ∧
      (cxl_cmd_validate cmd cmd_id).2.query_status = CXL_CMD_QUERY_OK ∧
      ∃ e, (q.commands.take q.n_commands).get? i = some e ∧ e.id = cmd_id ∧
        ∀ j, j < i → ∀ e2, (q.commands.take q.n_commands).get? j = some e2 →
          e2.id ≠ cmd_id) ∧
    ((∀ e ∈ q.commands.take q.n_commands, e.id ≠ cmd_id) →
      (cxl_cmd_validate cmd cmd_id).1 = -EOPNOTSUPP ∧
      (cxl_cmd_validate cmd cmd_id).2.query_status = CXL_CMD_QUERY_UNSUPPORTED) ∧
    (∀ (memdev : CxlMemdev) (tr : Nat → Except Int QueryCommands)
        (q0 qq : QueryCommands),
      tr 0 = Except.ok q0 → tr q0.n_commands = Except.ok qq →
      (∀ e ∈ qq.commands.take qq.n_commands, e.id ≠ cmd_id) →
      (cxl_cmd_new_generic memdev cmd_id tr).1 = Except.error (-EOPNOTSUPP) ∧
      (cxl_cmd_new_generic memdev cmd_id tr).2.1.query_status =
        CXL_CMD_QUERY_UNSUPPORTED ∧
      (cxl_cmd_new_generic memdev cmd_id tr).2.1.input_payload = none ∧
      (cxl_cmd_new_generic memdev cmd_id tr).2.1.output_payload = none) := by
  refine ⟨?_, ?_, ?_, ?_⟩
  · cases hsc : validate_scan (q.commands.take q.n_commands) cmd_id with
    | none =>
      have hst : (cxl_cmd_validate cmd cmd_id).2.query_status =
          CXL_CMD_QUERY_UNSUPPORTED := by
        simp [cxl_cmd_validate, hq, hsc]
      exact iff_of_true hst
        ((validate_scan_eq_none_iff cmd_id (q.commands.take q.n_commands)).mp hsc)
    | some i =>
      have hst : (cxl_cmd_validate cmd cmd_id).2.query_status = CXL_CMD_QUERY_OK := by
        simp [cxl_cmd_validate, hq, hsc]
      constructor
      · intro h
        rw [hst] at h
        simp [CXL_CMD_QUERY_OK, CXL_CMD_QUERY_UNSUPPORTED] at h
      · intro hnone
        exfalso
        have hn := (validate_scan_eq_none_iff cmd_id
          (q.commands.take q.n_commands)).mpr hnone
        rw [hn] at hsc
        cases hsc
  · intro i hsc
    have h1 : (cxl_cmd_validate cmd cmd_id).1 = 0 := by
      simp [cxl_cmd_validate, hq, hsc]
    have h2 : (cxl_cmd_validate cmd cmd_id).2.query_idx = i := by
      simp [cxl_cmd_validate, hq, hsc]
    have h3 : (cxl_cmd_validate cmd cmd_id).2.query_status = CXL_CMD_QUERY_OK := by
      simp [cxl_cmd_validate, hq, hsc]
    exact ⟨h1, h2, h3, validate_scan_some_spec cmd_id _ i hsc⟩
  · intro hnone
    have hsc := (validate_scan_eq_none_iff cmd_id
      (q.commands.take q.n_commands)).mpr hnone
    constructor
    · simp [cxl_cmd_validate, hq, hsc]
    · simp [cxl_cmd_validate, hq, hsc]
  · intro memdev tr q0 qq htr0 htr1 hnone
    have hsc := (validate_scan_eq_none_iff cmd_id
      (qq.commands.take qq.n_commands)).mpr hnone
    refine ⟨?_, ?_, ?_, ?_⟩ <;>
      simp [cxl_cmd_new_generic, cxl_cmd_new, cxl_cmd_do_query, alloc_do_query,
        cxl_cmd_alloc_query, cxl_cmd_validate, CXL_CMD_QUERY_NOT_RUN,
        CXL_CMD_QUERY_OK, CXL_CMD_QUERY_UNSUPPORTED, htr0, htr1, hsc,
        EOPNOTSUPP]

/-- C6 witness: command id 99 is absent from the fixture catalog, so
generic construction on the fixture device fails with -EOPNOTSUPP in
the UNSUPPORTED state with no payload buffers allocated. -/
theorem C6_validate_first_match_witness :
    (cxl_cmd_new_generic mdFix 99 trFix).1 = Except.error (-EOPNOTSUPP) ∧
    (cxl_cmd_new_generic mdFix 99 trFix).2.1.query_status =
      CXL_CMD_QUERY_UNSUPPORTED ∧
    (cxl_cmd_new_generic mdFix 99 trFix).2.1.input_payload = none ∧
    (cxl_cmd_new_generic mdFix 99 trFix).2.1.output_payload = none :=
  (C6_validate_first_match cmdOkFix qFix 99 rfl).2.2.2 mdFix trFix
    { n_commands := 2, commands := [] } qFullFix rfl rfl (by decide)

end LibCxl
